import Mathlib

/-!
Shallow embedding of the keybinding resolution and dispatch engine:
the binding value types of `src/vs/base/common/mouseButtons.ts` and the
chord / selection dispatch state machine of
`src/vs/platform/keybinding/common/abstractKeybindingService.ts`.
-/

namespace VSKeybinding

/-! ## Binding model (`mouseButtons.ts`) -/

/-- The `MouseButton` const enum: Left = 0, Middle = 1, Right = 2. -/
inductive MouseButton where
  | Left
  | Middle
  | Right
deriving DecidableEq, Repr

/-- Numeric value of the const enum member, as it appears in string
interpolation in the source. -/
def MouseButton.toNumber : MouseButton → Nat
  | .Left => 0
  | .Middle => 1
  | .Right => 2

/-- The `uiButtonToStr` table used by `MouseButtonUtils.toString`. -/
def MouseButtonUtils.toUiString : MouseButton → String
  | .Left => "LMB"
  | .Middle => "MMB"
  | .Right => "RMB"

/-- The fields of the abstract class `BaseMouseBinding`: the four modifier
flags and the mouse button. -/
structure BaseMouseBindingFields where
  ctrlKey : Bool
  shiftKey : Bool
  altKey : Bool
  metaKey : Bool
  button : MouseButton
deriving DecidableEq, Repr

/-- A concrete `BaseMouseBinding` instance is either a `MouseBinding`
(carrying the optional click count `times`; one is single click, two is
double click) or a `SelectionBinding`. -/
inductive MouseOrSelectionBinding where
  | mouseB (base : BaseMouseBindingFields) (times : Option Nat)
  | selectionB (base : BaseMouseBindingFields)
deriving DecidableEq, Repr

/-- The base fields of either variant. -/
def MouseOrSelectionBinding.base : MouseOrSelectionBinding → BaseMouseBindingFields
  | .mouseB b _ => b
  | .selectionB b => b

/-- JavaScript property access `other.times`: a `SelectionBinding` object has
no `times` property, so the access yields `undefined` (modelled as `none`). -/
def MouseOrSelectionBinding.times : MouseOrSelectionBinding → Option Nat
  | .mouseB _ t => t
  | .selectionB _ => none

/-- True when the two values are instances of the same class. -/
def MouseOrSelectionBinding.sameVariant : MouseOrSelectionBinding → MouseOrSelectionBinding → Bool
  | .mouseB _ _, .mouseB _ _ => true
  | .selectionB _, .selectionB _ => true
  | _, _ => false

/-- `BaseMouseBinding.equals`: compares the four modifier flags and the
button. -/
def baseEquals (a b : BaseMouseBindingFields) : Bool :=
  a.ctrlKey == b.ctrlKey
  && a.shiftKey == b.shiftKey
  && a.altKey == b.altKey
  && a.metaKey == b.metaKey
  && a.button == b.button

/-- Dynamic dispatch of `equals`: `MouseBinding.equals` is
`super.equals(other) && this.times === other.times`; `SelectionBinding.equals`
is `super.equals(other)` alone. Neither checks the variant of `other`: the
public signature `SelectionBinding.equals(other: MouseBinding)` admits a
cross-variant comparison, and `other.times` on a `SelectionBinding` reads as
`undefined`. -/
def bindingEquals : MouseOrSelectionBinding → MouseOrSelectionBinding → Bool
  | .mouseB a t, other => baseEquals a other.base && (t == other.times)
  | .selectionB a, other => baseEquals a other.base

/-- JavaScript template interpolation of a possibly-undefined number:
an `undefined` value prints as the string "undefined". -/
def jsNumToString : Option Nat → String
  | some n => toString n
  | none => "undefined"

/-- The protected `BaseMouseBinding.getHashCode`: four modifier digits
followed by the button enum value. -/
def baseGetHashCode (b : BaseMouseBindingFields) : String :=
  (if b.ctrlKey then "1" else "0")
  ++ (if b.shiftKey then "1" else "0")
  ++ (if b.altKey then "1" else "0")
  ++ (if b.metaKey then "1" else "0")
  ++ toString b.button.toNumber

/-- `getHashCode` of either variant: `MouseBinding` produces
`` `${this.times}m` + super.getHashCode() ``; `SelectionBinding` produces
`'s' + super.getHashCode()`. -/
def getHashCode : MouseOrSelectionBinding → String
  | .mouseB a t => jsNumToString t ++ "m" ++ baseGetHashCode a
  | .selectionB a => "s" ++ baseGetHashCode a

/-- The `dispatchPrefix` getter: "mouse" for a `MouseBinding`, "selection"
for a `SelectionBinding`. -/
def dispatchHead : MouseOrSelectionBinding → String
  | .mouseB _ _ => "mouse"
  | .selectionB _ => "selection"

/-- `ResolvedMouseBinding.getDispatchParts`: the dispatch prefix, a space,
the held modifiers, and the button name. The click count `times` does not
appear in the result. -/
def getDispatchParts (binding : MouseOrSelectionBinding) : List (Option String) :=
  let result := dispatchHead binding ++ " "
  let result := if binding.base.ctrlKey then result ++ "ctrl+" else result
  let result := if binding.base.shiftKey then result ++ "shift+" else result
  let result := if binding.base.altKey then result ++ "alt+" else result
  let result := if binding.base.metaKey then result ++ "meta+" else result
  let result := result ++ MouseButtonUtils.toUiString binding.base.button
  [some result]

/-! ## Dispatch engine (`abstractKeybindingService.ts`) -/

/-- The `CurrentChord` interface: first-part dispatch string and display
label recorded when chord mode is entered. -/
structure CurrentChord where
  keypress : String
  label : Option String
deriving DecidableEq, Repr

/-- The `IResolveResult` outcome returned by `KeybindingResolver.resolve`. -/
structure ResolveResult where
  commandId : Option String
  commandArgs : Option (List String)
  bubble : Bool
  enterChord : Bool
deriving DecidableEq, Repr

/-- The mutable fields of `AbstractKeybindingService`:
`_currentChord`, `_currentChordChecker` (the interval timer, modelled by the
`chordEnterTime` its callback closes over while it is set),
`_currentChordStatusMessage` (the held status-message disposable, modelled by
the label it was created with), and `_selectionCommand`. -/
structure KbState where
  currentChord : Option CurrentChord
  currentChordChecker : Option Nat
  currentChordStatusMessage : Option (Option String)
  selectionCommand : Option ResolveResult
deriving DecidableEq, Repr

/-- A `ResolvedKeybinding` as consumed by `_getCommand` / `_doDispatch`:
the `isChord()` query, the first element of `getDispatchParts()`, and the
display label `getLabel()`. -/
structure ResolvedKb where
  isChord : Bool
  dispatchPart : Option String
  label : Option String
deriving DecidableEq, Repr

/-- Observable actions of the engine. `execute` records the engine state at
the moment the command executor is invoked, so that properties about what
re-entrant input could observe during execution are expressible. -/
inductive Effect where
  | chordStatus (label : Option String)
  | missingChord (firstLabel secondLabel : Option String)
  | disposeStatus
  | cancelTimer
  | setTimer (periodMs : Nat)
  | warn (msg : String)
  | telemetry (commandId : Option String)
  | resolverQuery (chordPart : Option String) (dispatchStr : String)
  | execute (commandId : Option String) (args : Option (List String)) (stateAtCall : KbState)
deriving DecidableEq, Repr

/-- Whether the effect is a command-executor invocation. -/
def Effect.isExecute : Effect → Bool
  | .execute _ _ _ => true
  | _ => false

/-- Whether the effect is a resolver lookup. -/
def Effect.isResolverQuery : Effect → Bool
  | .resolverQuery _ _ => true
  | _ => false

/-- The warning text of `_getCommand` for a chord-valued keyboard event. -/
def chordWarnMsg : String := "Unexpected keyboard event mapped to a chord"

/-- The error raised when `_executeCommand` receives the `null` stored in
`_selectionCommand` and reads `resolveResult.commandArgs` from it. -/
def nullResolveResultError : String :=
  "TypeError: cannot read commandArgs of null"

/-- The resolver contract: context snapshot and predicate evaluation are
folded into the function, which maps the current chord prefix part (if any)
and a dispatch string to at most one matching rule outcome. -/
def Resolver : Type := Option String → String → Option ResolveResult

/-- `_getCommand`: a chord-valued keybinding is rejected with a console
warning; a keybinding with no dispatchable first part is rejected silently;
otherwise the resolver is queried with the current chord part (if any) and
the first dispatch part. The engine state is only read, never written. -/
def getCommand (resolve : Resolver) (keybinding : ResolvedKb) (self : KbState) :
    Option ResolveResult × List Effect :=
  if keybinding.isChord then
    (none, [Effect.warn chordWarnMsg])
  else
    match keybinding.dispatchPart with
    | none => (none, [])
    | some firstPart =>
      let currentChord := self.currentChord.map CurrentChord.keypress
      (resolve currentChord firstPart, [Effect.resolverQuery currentChord firstPart])

/-- `softDispatch`: resolve the event and run `_getCommand`; the body
contains no assignment to any engine field, so the state passes through
unchanged. -/
def softDispatch (resolve : Resolver) (keybinding : ResolvedKb) (self : KbState) :
    KbState × (Option ResolveResult × List Effect) :=
  (self, getCommand resolve keybinding self)

/-- `_enterChordMode`: store the new `CurrentChord`, replace the status
message with a fresh one, and `cancelAndSet` the 500 ms interval checker,
capturing `chordEnterTime = Date.now()`. -/
def enterChordMode (firstPart : String) (keypressLabel : Option String)
    (now : Nat) (self : KbState) : KbState × List Effect :=
  ({ self with
      currentChord := some { keypress := firstPart, label := keypressLabel }
      currentChordStatusMessage := some keypressLabel
      currentChordChecker := some now },
   [Effect.chordStatus keypressLabel, Effect.cancelTimer, Effect.setTimer 500])

/-- `_leaveChordMode`: dispose the status message if one is held, cancel the
interval checker, and clear the chord. -/
def leaveChordMode (self : KbState) : KbState × List Effect :=
  let (self, effs) :=
    match self.currentChordStatusMessage with
    | some _ => ({ self with currentChordStatusMessage := none }, [Effect.disposeStatus])
    | none => (self, [])
  ({ self with currentChordChecker := none, currentChord := none },
   effs ++ [Effect.cancelTimer])

/-- The callback installed by `_enterChordMode` on the interval timer,
firing every 500 ms while the timer is set: leave chord mode when the
document has lost focus or when strictly more than 5000 ms have elapsed
since `chordEnterTime`. -/
def chordCheckerTick (documentHasFocus : Bool) (now : Nat) (self : KbState) :
    KbState × List Effect :=
  match self.currentChordChecker with
  | none => (self, [])
  | some chordEnterTime =>
    if !documentHasFocus then
      leaveChordMode self
    else if now - chordEnterTime > 5000 then
      leaveChordMode self
    else
      (self, [])

/-- `_executeCommand` on a non-null resolve result: merge the caller args
with the rule args (rule args appended after caller args), emit the
telemetry event, and invoke the command executor. In the source both
branches of the final `typeof args === 'undefined'` test call
`executeCommand(commandId)` with the command id alone, so the merged `args`
value never reaches the executor. -/
def executeCommand (self : KbState) (resolveResult : ResolveResult)
    (args : Option (List String)) : List Effect :=
  let args : Option (List String) :=
    match args with
    | none => resolveResult.commandArgs
    | some a =>
      match resolveResult.commandArgs with
      | some ca => some (a ++ ca)
      | none => some a
  Effect.telemetry resolveResult.commandId ::
    (match args with
     | none => [Effect.execute resolveResult.commandId none self]
     | some _ => [Effect.execute resolveResult.commandId none self])

/-- `completeSelection`: read `this._selectionCommand!` (a runtime `null`
when no selection shortcut is pending), clear the field, then call
`_executeCommand`, which dereferences the value. -/
def completeSelection (self : KbState) :
    KbState × Except String (List Effect) :=
  let command := self.selectionCommand
  let self := { self with selectionCommand := none }
  match command with
  | some resolveResult => (self, Except.ok (executeCommand self resolveResult none))
  | none => (self, Except.error nullResolveResultError)

/-- `cancelSelection`: discard the pending selection command; the body
performs no other action. -/
def cancelSelection (self : KbState) : KbState × List Effect :=
  ({ self with selectionCommand := none }, [])

/-- `_doDispatch`: resolve the keybinding against the current state; on an
`enterChord` outcome enter (or re-enter) chord mode and consume the input;
otherwise notify when a pending chord fails to complete, always leave chord
mode, and execute the resolved command when one is present. -/
def doDispatch (resolve : Resolver) (keybinding : ResolvedKb) (now : Nat)
    (self : KbState) : KbState × Bool × List Effect :=
  let keypressLabel := keybinding.label
  let r := getCommand resolve keybinding self
  let resolveResult := r.1
  let effs0 := r.2
  if (resolveResult.map ResolveResult.enterChord).getD false then
    let e := enterChordMode (keybinding.dispatchPart.getD "") keypressLabel now self
    (e.1, true, effs0 ++ e.2)
  else
    let missing : Bool :=
      match resolveResult with
      | none => true
      | some rr => rr.commandId.isNone
    let shouldPreventDefault : Bool := self.currentChord.isSome && missing
    let missEffs : List Effect :=
      match self.currentChord with
      | some chord =>
        if missing then [Effect.missingChord chord.label keypressLabel] else []
      | none => []
    let l := leaveChordMode self
    let self2 := l.1
    let effs1 := l.2
    match resolveResult with
    | some rr =>
      match rr.commandId with
      | some _ =>
        let pd := if !rr.bubble then true else shouldPreventDefault
        (self2, pd, effs0 ++ missEffs ++ effs1 ++ executeCommand self2 rr none)
      | none => (self2, shouldPreventDefault, effs0 ++ missEffs ++ effs1)
    | none => (self2, shouldPreventDefault, effs0 ++ missEffs ++ effs1)

/-- Projection of a successful effect list; a raised error has produced no
effects beyond the state mutation already performed. -/
def okEffects : Except String (List Effect) → List Effect
  | .ok effs => effs
  | .error _ => []

/-- Number of command-executor invocations in an effect list. -/
def countExecutes (effs : List Effect) : Nat :=
  (effs.filter Effect.isExecute).length

/-- The chord state components are all cleared in the state snapshot carried
by every executor invocation. -/
def chordClearedAtExecute : Effect → Bool
  | .execute _ _ st =>
    st.currentChord.isNone && st.currentChordChecker.isNone
      && st.currentChordStatusMessage.isNone
  | _ => true

/-- The pending selection command is cleared in the state snapshot carried
by every executor invocation. -/
def selectionClearedAtExecute : Effect → Bool
  | .execute _ _ st => st.selectionCommand.isNone
  | _ => true

/-- Every executor invocation in the list carries the given command id. -/
def executesOnly (cid : Option String) : Effect → Bool
  | .execute c _ _ => c == cid
  | _ => true

/-- Whether the binding is a `MouseBinding` instance. -/
def MouseOrSelectionBinding.isMouseBinding : MouseOrSelectionBinding → Bool
  | .mouseB _ _ => true
  | .selectionB _ => false

/-- The `MouseBindingType` result of `onEditorMouseDown`. -/
inductive MouseBindingType where
  | NoBinding
  | Mouse
  | Selection
deriving DecidableEq, Repr

/-- The fields of an `IEditorMouseEvent` consumed by `onEditorMouseDown`:
modifiers, button, click count, and the position payload passed to the
executed command (opaque here). The context target is folded into the
resolver. -/
structure EditorMouseEvent where
  ctrlKey : Bool
  shiftKey : Bool
  altKey : Bool
  metaKey : Bool
  button : MouseButton
  times : Option Nat
  position : String
deriving DecidableEq, Repr

/-- A `ResolvedMouseBinding` viewed through the `ResolvedKeybinding`
interface used by `_getCommand`: `isChord()` is false and the single
dispatch part comes from `getDispatchParts`. The display label is produced
by the external label providers and plays no role in `_getCommand`. -/
def resolvedMouseKb (binding : MouseOrSelectionBinding) : ResolvedKb :=
  { isChord := false
    dispatchPart := (getDispatchParts binding).headD none
    label := none }

/-- `onEditorMouseDown`: with `enableNonSelections`, first try a
`MouseBinding` lookup and execute its command with the mouse position as
caller argument; otherwise (or on a miss) resolve a `SelectionBinding` and
store the outcome in `_selectionCommand`, reporting whether a selection
shortcut was found. -/
def onEditorMouseDown (resolve : Resolver) (mouseEvent : EditorMouseEvent)
    (enableNonSelections : Bool) (self : KbState) :
    KbState × MouseBindingType × List Effect :=
  let base : BaseMouseBindingFields :=
    { ctrlKey := mouseEvent.ctrlKey, shiftKey := mouseEvent.shiftKey
      altKey := mouseEvent.altKey, metaKey := mouseEvent.metaKey
      button := mouseEvent.button }
  let mouseTry : List Effect × Option ResolveResult :=
    if enableNonSelections then
      let resolvedBinding := resolvedMouseKb (MouseOrSelectionBinding.mouseB base mouseEvent.times)
      let r := getCommand resolve resolvedBinding self
      (r.2, r.1)
    else ([], none)
  match mouseTry.2 with
  | some mouseCommand =>
    (self, MouseBindingType.Mouse,
      mouseTry.1 ++ executeCommand self mouseCommand (some [mouseEvent.position]))
  | none =>
    let resolvedBinding := resolvedMouseKb (MouseOrSelectionBinding.selectionB base)
    let r := getCommand resolve resolvedBinding self
    let self := { self with selectionCommand := r.1 }
    (self,
      (if r.1.isSome then MouseBindingType.Selection else MouseBindingType.NoBinding),
      mouseTry.1 ++ r.2)

/-! ## Helper lemmas -/

theorem MouseButton.beq_iff (a b : MouseButton) : (a == b) = true ↔ a = b := by
  cases a <;> cases b <;> decide

theorem baseEquals_iff (a b : BaseMouseBindingFields) : baseEquals a b = true ↔ a = b := by
  obtain ⟨ac, as, aa, am, ab⟩ := a
  obtain ⟨bc, bs, ba, bm, bb⟩ := b
  simp [baseEquals, BaseMouseBindingFields.mk.injEq, MouseButton.beq_iff, and_assoc]

/-! ## Claims about the binding model -/

/-- C1 (code bug evidence): a double-click `MouseBinding` and a single-click
`MouseBinding` with identical modifiers and button produce the same dispatch
string "mouse ctrl+LMB" (the click count is omitted by `getDispatchParts`),
although the bindings are semantically distinct: `equals` is false and their
hash codes differ. A single click therefore matches a rule registered for a
double click, contradicting the stated property. -/
theorem C1_dispatch_string_collision :
    getDispatchParts (MouseOrSelectionBinding.mouseB
        ⟨true, false, false, false, MouseButton.Left⟩ (some 2))
      = getDispatchParts (MouseOrSelectionBinding.mouseB
        ⟨true, false, false, false, MouseButton.Left⟩ (some 1))
    ∧ getDispatchParts (MouseOrSelectionBinding.mouseB
        ⟨true, false, false, false, MouseButton.Left⟩ (some 2))
      = [some "mouse ctrl+LMB"]
    ∧ bindingEquals (MouseOrSelectionBinding.mouseB
        ⟨true, false, false, false, MouseButton.Left⟩ (some 2))
        (MouseOrSelectionBinding.mouseB
        ⟨true, false, false, false, MouseButton.Left⟩ (some 1)) = false
    ∧ getHashCode (MouseOrSelectionBinding.mouseB
        ⟨true, false, false, false, MouseButton.Left⟩ (some 2))
      ≠ getHashCode (MouseOrSelectionBinding.mouseB
        ⟨true, false, false, false, MouseButton.Left⟩ (some 1)) := by
  refine ⟨rfl, rfl, rfl, ?_⟩
  decide

/-- C6 (counterexample): a `SelectionBinding` and a `MouseBinding` with the
same modifiers and button are of distinct variants, yet `equals` returns
true for them, refuting the claim that bindings of distinct variants are
never equal. -/
theorem C6_cross_variant_equal :
    bindingEquals
        (MouseOrSelectionBinding.selectionB ⟨true, false, false, false, MouseButton.Left⟩)
        (MouseOrSelectionBinding.mouseB ⟨true, false, false, false, MouseButton.Left⟩ (some 2))
      = true
    ∧ MouseOrSelectionBinding.sameVariant
        (MouseOrSelectionBinding.selectionB ⟨true, false, false, false, MouseButton.Left⟩)
        (MouseOrSelectionBinding.mouseB ⟨true, false, false, false, MouseButton.Left⟩ (some 2))
      = false := by
  decide

/-- C6 (amended): `equals` compares the four modifier flags, the button and,
when the receiver is a `MouseBinding`, its click count against the `times`
property of the other value (read as `undefined` on a `SelectionBinding`);
it performs no variant check, so bindings of distinct variants can compare
equal. -/
theorem C6_equals_characterization (b1 b2 : MouseOrSelectionBinding) :
    bindingEquals b1 b2 = true ↔
      (b1.base = b2.base
        ∧ (b1.isMouseBinding = true → b1.times = b2.times)) := by
  cases b1 <;>
    simp [bindingEquals, baseEquals_iff, MouseOrSelectionBinding.isMouseBinding,
      MouseOrSelectionBinding.base, MouseOrSelectionBinding.times]

/-! ## Helper lemmas about the dispatch engine -/

theorem getCommand_no_execute (resolve : Resolver) (kb : ResolvedKb) (s : KbState) :
    (getCommand resolve kb s).2.all (fun e => !e.isExecute) = true := by
  unfold getCommand
  split
  · simp [Effect.isExecute]
  · split <;> simp [Effect.isExecute]

theorem enterChordMode_no_execute (fp : String) (lbl : Option String) (now : Nat) (s : KbState) :
    (enterChordMode fp lbl now s).2.all (fun e => !e.isExecute) = true := by
  simp [enterChordMode, Effect.isExecute]

theorem leaveChordMode_spec (s : KbState) :
    (leaveChordMode s).1.currentChord = none
    ∧ (leaveChordMode s).1.currentChordChecker = none
    ∧ (leaveChordMode s).1.currentChordStatusMessage = none
    ∧ (leaveChordMode s).1.selectionCommand = s.selectionCommand
    ∧ (leaveChordMode s).2.all (fun e => !e.isExecute) = true := by
  unfold leaveChordMode
  rcases h : s.currentChordStatusMessage <;> simp [h, Effect.isExecute]

theorem no_execute_all (P : Effect → Bool)
    (hP : ∀ e, e.isExecute = false → P e = true)
    (effs : List Effect) (h : effs.all (fun e => !e.isExecute) = true) :
    effs.all P = true := by
  induction effs with
  | nil => rfl
  | cons e tl ih =>
    simp only [List.all_cons, Bool.and_eq_true, Bool.not_eq_true'] at h ⊢
    exact ⟨hP e h.1, ih h.2⟩

theorem executeCommand_all (P : Effect → Bool) (self : KbState) (rr : ResolveResult)
    (args : Option (List String))
    (hT : P (Effect.telemetry rr.commandId) = true)
    (hE : P (Effect.execute rr.commandId none self) = true) :
    (executeCommand self rr args).all P = true := by
  rcases args with _ | a <;> rcases hca : rr.commandArgs with _ | ca <;>
    simp [executeCommand, hca, hT, hE]

/-! ## Claims about the dispatch engine -/

/-- C2: whenever the engine invokes the command executor — from
`_doDispatch` (chord second key or plain dispatch) or from
`completeSelection` — the respective mutable state has already been fully
cleared at the moment of the call: every executor invocation of
`_doDispatch` carries a snapshot with no current chord, no chord checker
timer, and no chord status message, and every executor invocation of
`completeSelection` carries a snapshot with no pending selection command. -/
theorem C2_state_cleared_before_execute (resolve : Resolver) (kb : ResolvedKb)
    (now : Nat) (s : KbState) :
    (doDispatch resolve kb now s).2.2.all chordClearedAtExecute = true
    ∧ (okEffects (completeSelection s).2).all selectionClearedAtExecute = true := by
  have hcc : ∀ e : Effect, e.isExecute = false → chordClearedAtExecute e = true := by
    intro e he; cases e <;> simp_all [Effect.isExecute, chordClearedAtExecute]
  have hg : (getCommand resolve kb s).2.all chordClearedAtExecute = true :=
    no_execute_all _ hcc _ (getCommand_no_execute resolve kb s)
  constructor
  · rcases hr : (getCommand resolve kb s).1 with _ | rr
    · rcases hch : s.currentChord with _ | chord <;>
        rcases hsm : s.currentChordStatusMessage with _ | sm <;>
          simp [doDispatch, hr, hch, hsm, leaveChordMode, chordClearedAtExecute, hg]
    · cases hec : rr.enterChord
      · rcases hcmd : rr.commandId with _ | cid <;>
          rcases hch : s.currentChord with _ | chord <;>
            rcases hsm : s.currentChordStatusMessage with _ | sm <;>
              rcases hca : rr.commandArgs with _ | ca <;>
                simp [doDispatch, hr, hec, hcmd, hch, hsm, hca, leaveChordMode,
                  executeCommand, chordClearedAtExecute, hg]
      · simp [doDispatch, hr, hec, enterChordMode, chordClearedAtExecute, hg]
  · rcases hs : s.selectionCommand with _ | rr
    · simp [completeSelection, hs, okEffects]
    · simp only [completeSelection, hs, okEffects]
      apply executeCommand_all
      · simp [selectionClearedAtExecute]
      · simp [selectionClearedAtExecute]

/-- C9: a keyboard event whose resolved keybinding unexpectedly reports a
two-part chord value is rejected by `_getCommand` with a console warning,
yielding no match, no resolver query, no executor invocation and no change
to the engine state; an event with no dispatchable first part (modifier-only
press) is likewise rejected with no match, no resolver query, no executor
invocation and no state change. -/
theorem C9_invalid_input_rejected (resolve : Resolver) (kb : ResolvedKb) (s : KbState)
    (h : kb.isChord = true ∨ kb.dispatchPart = none) :
    (getCommand resolve kb s).1 = none
    ∧ (getCommand resolve kb s).2.all
        (fun e => !e.isExecute && !e.isResolverQuery) = true
    ∧ (kb.isChord = true → Effect.warn chordWarnMsg ∈ (getCommand resolve kb s).2)
    ∧ (softDispatch resolve kb s).1 = s := by
  rcases h with h | h
  · simp [getCommand, h, softDispatch, Effect.isExecute, Effect.isResolverQuery]
  · rcases hc : kb.isChord
    · simp [getCommand, h, hc, softDispatch]
    · simp [getCommand, hc, softDispatch, Effect.isExecute, Effect.isResolverQuery]

/-- C9 witness: a concrete chord-valued keybinding is rejected as the
theorem states. -/
theorem C9_witness :
    ((ResolvedKb.mk true (some "ctrl+K ctrl+S") (some "chordLabel")).isChord = true
      ∨ (ResolvedKb.mk true (some "ctrl+K ctrl+S") (some "chordLabel")).dispatchPart = none)
    ∧ ((getCommand (fun _ _ => none) (ResolvedKb.mk true (some "ctrl+K ctrl+S") (some "chordLabel"))
          (KbState.mk none none none none)).1 = none
      ∧ (getCommand (fun _ _ => none) (ResolvedKb.mk true (some "ctrl+K ctrl+S") (some "chordLabel"))
          (KbState.mk none none none none)).2.all
          (fun e => !e.isExecute && !e.isResolverQuery) = true
      ∧ ((ResolvedKb.mk true (some "ctrl+K ctrl+S") (some "chordLabel")).isChord = true →
          Effect.warn chordWarnMsg ∈
            (getCommand (fun _ _ => none) (ResolvedKb.mk true (some "ctrl+K ctrl+S") (some "chordLabel"))
              (KbState.mk none none none none)).2)
      ∧ (softDispatch (fun _ _ => none) (ResolvedKb.mk true (some "ctrl+K ctrl+S") (some "chordLabel"))
          (KbState.mk none none none none)).1 = KbState.mk none none none none) :=
  ⟨Or.inl rfl,
   C9_invalid_input_rejected (fun _ _ => none)
     (ResolvedKb.mk true (some "ctrl+K ctrl+S") (some "chordLabel"))
     (KbState.mk none none none none) (Or.inl rfl)⟩

/-- C10: `softDispatch` leaves the engine state untouched, produces the same
resolve outcome as the resolution step `_getCommand` that `_doDispatch`
performs on the same state, and never invokes the command executor. -/
theorem C10_softDispatch_pure (resolve : Resolver) (kb : ResolvedKb) (now : Nat)
    (s : KbState) :
    (softDispatch resolve kb s).1 = s
    ∧ (softDispatch resolve kb s).2.1 = (getCommand resolve kb s).1
    ∧ (softDispatch resolve kb s).2.2.all (fun e => !e.isExecute) = true
    ∧ (doDispatch resolve kb now s).2.2.all
        (executesOnly ((getCommand resolve kb s).1.bind ResolveResult.commandId)) = true := by
  refine ⟨rfl, rfl, getCommand_no_execute resolve kb s, ?_⟩
  have hno : ∀ e : Effect, e.isExecute = false →
      executesOnly ((getCommand resolve kb s).1.bind ResolveResult.commandId) e = true := by
    intro e he; cases e <;> simp_all [Effect.isExecute, executesOnly]
  have hg : (getCommand resolve kb s).2.all
      (executesOnly ((getCommand resolve kb s).1.bind ResolveResult.commandId)) = true :=
    no_execute_all _ hno _ (getCommand_no_execute resolve kb s)
  rcases hr : (getCommand resolve kb s).1 with _ | rr
  · rcases hch : s.currentChord with _ | chord <;>
      rcases hsm : s.currentChordStatusMessage with _ | sm <;>
        simp_all [doDispatch, hr, leaveChordMode, executesOnly]
  · cases hec : rr.enterChord
    · rcases hcmd : rr.commandId with _ | cid <;>
        rcases hch : s.currentChord with _ | chord <;>
          rcases hsm : s.currentChordStatusMessage with _ | sm <;>
            rcases hca : rr.commandArgs with _ | ca <;>
              simp_all [doDispatch, leaveChordMode, executeCommand, executesOnly]
    · simp_all [doDispatch, enterChordMode, executesOnly]

/-- C3: while in chord mode the interval checker installed by
`_enterChordMode` fires every 500 ms; on a tick where the host has lost
input focus, or strictly more than 5000 ms have elapsed since chord entry,
the engine leaves chord mode — the chord is cleared, the timer cancelled,
the status message disposed — no command executes, and a subsequent key is
resolved with no chord part, as if no chord had begun. -/
theorem C3_chord_liveness (focus : Bool) (now enter : Nat) (s : KbState)
    (resolve : Resolver) (kb : ResolvedKb) (fp : String)
    (hT : s.currentChordChecker = some enter)
    (hCond : focus = false ∨ 5000 < now - enter)
    (hKb : kb.isChord = false) (hFp : kb.dispatchPart = some fp) :
    (chordCheckerTick focus now s).1.currentChord = none
    ∧ (chordCheckerTick focus now s).1.currentChordChecker = none
    ∧ (chordCheckerTick focus now s).1.currentChordStatusMessage = none
    ∧ (chordCheckerTick focus now s).2.all (fun e => !e.isExecute) = true
    ∧ (s.currentChordStatusMessage.isSome = true →
        Effect.disposeStatus ∈ (chordCheckerTick focus now s).2)
    ∧ Effect.cancelTimer ∈ (chordCheckerTick focus now s).2
    ∧ (getCommand resolve kb (chordCheckerTick focus now s).1).1 = resolve none fp
    ∧ Effect.setTimer 500 ∈ (enterChordMode fp kb.label now s).2 := by
  have ht : chordCheckerTick focus now s = leaveChordMode s := by
    rcases hCond with h | h
    · simp [chordCheckerTick, hT, h]
    · cases focus
      · simp [chordCheckerTick, hT]
      · simp [chordCheckerTick, hT, h]
  rw [ht]
  rcases hsm : s.currentChordStatusMessage with _ | sm <;>
    simp [leaveChordMode, hsm, getCommand, hKb, hFp, enterChordMode, Effect.isExecute]

/-- C3 witness: a tick at 6000 ms past a chord entered at time 0, with
focus retained, clears the chord state as the theorem states. -/
theorem C3_witness :
    ((KbState.mk (some (CurrentChord.mk "ctrl+K" (some "Ctrl+K"))) (some 0)
        (some (some "Ctrl+K")) none).currentChordChecker = some 0
    ∧ (true = false ∨ 5000 < 6000 - 0))
    ∧ ((chordCheckerTick true 6000 (KbState.mk (some (CurrentChord.mk "ctrl+K" (some "Ctrl+K")))
          (some 0) (some (some "Ctrl+K")) none)).1.currentChord = none
    ∧ (chordCheckerTick true 6000 (KbState.mk (some (CurrentChord.mk "ctrl+K" (some "Ctrl+K")))
          (some 0) (some (some "Ctrl+K")) none)).1.currentChordChecker = none
    ∧ (chordCheckerTick true 6000 (KbState.mk (some (CurrentChord.mk "ctrl+K" (some "Ctrl+K")))
          (some 0) (some (some "Ctrl+K")) none)).1.currentChordStatusMessage = none
    ∧ (chordCheckerTick true 6000 (KbState.mk (some (CurrentChord.mk "ctrl+K" (some "Ctrl+K")))
          (some 0) (some (some "Ctrl+K")) none)).2.all (fun e => !e.isExecute) = true
    ∧ ((KbState.mk (some (CurrentChord.mk "ctrl+K" (some "Ctrl+K"))) (some 0)
          (some (some "Ctrl+K")) none).currentChordStatusMessage.isSome = true →
        Effect.disposeStatus ∈ (chordCheckerTick true 6000
          (KbState.mk (some (CurrentChord.mk "ctrl+K" (some "Ctrl+K")))
            (some 0) (some (some "Ctrl+K")) none)).2)
    ∧ Effect.cancelTimer ∈ (chordCheckerTick true 6000
        (KbState.mk (some (CurrentChord.mk "ctrl+K" (some "Ctrl+K")))
          (some 0) (some (some "Ctrl+K")) none)).2
    ∧ (getCommand (fun _ _ => none) (ResolvedKb.mk false (some "x") (some "X"))
        (chordCheckerTick true 6000 (KbState.mk (some (CurrentChord.mk "ctrl+K" (some "Ctrl+K")))
          (some 0) (some (some "Ctrl+K")) none)).1).1
      = (fun (_ : Option String) (_ : String) => (none : Option ResolveResult)) none "x"
    ∧ Effect.setTimer 500 ∈ (enterChordMode "x" (ResolvedKb.mk false (some "x") (some "X")).label
        6000 (KbState.mk (some (CurrentChord.mk "ctrl+K" (some "Ctrl+K")))
          (some 0) (some (some "Ctrl+K")) none)).2) :=
  ⟨⟨rfl, Or.inr (by decide)⟩,
   C3_chord_liveness true 6000 0
     (KbState.mk (some (CurrentChord.mk "ctrl+K" (some "Ctrl+K"))) (some 0)
       (some (some "Ctrl+K")) none)
     (fun _ _ => none) (ResolvedKb.mk false (some "x") (some "X")) "x"
     rfl (Or.inr (by decide)) rfl rfl⟩

/-- C4: while in chord mode, an input event whose resolution against the
stored chord part yields no match (or an explicitly removed binding that
does not continue a chord) produces the "is not a command" status message
naming both chord parts, clears the chord state, executes no command, and
consumes the input (`_doDispatch` returns true). -/
theorem C4_chord_no_match (resolve : Resolver) (kb : ResolvedKb) (now : Nat)
    (s : KbState) (chord : CurrentChord) (fp : String)
    (hChord : s.currentChord = some chord)
    (hKb : kb.isChord = false) (hFp : kb.dispatchPart = some fp)
    (hMiss : resolve (some chord.keypress) fp = none
      ∨ ∃ rr, resolve (some chord.keypress) fp = some rr
          ∧ rr.commandId = none ∧ rr.enterChord = false) :
    (doDispatch resolve kb now s).2.1 = true
    ∧ (doDispatch resolve kb now s).1.currentChord = none
    ∧ (doDispatch resolve kb now s).1.currentChordChecker = none
    ∧ (doDispatch resolve kb now s).1.currentChordStatusMessage = none
    ∧ Effect.missingChord chord.label kb.label ∈ (doDispatch resolve kb now s).2.2
    ∧ (doDispatch resolve kb now s).2.2.all (fun e => !e.isExecute) = true := by
  have hgc : getCommand resolve kb s
      = (resolve (some chord.keypress) fp, [Effect.resolverQuery (some chord.keypress) fp]) := by
    simp [getCommand, hKb, hFp, hChord]
  rcases hMiss with hm | ⟨rr, hm, hcmd, hec⟩
  · rcases hsm : s.currentChordStatusMessage with _ | sm <;>
      simp [doDispatch, hgc, hm, hChord, hsm, leaveChordMode, Effect.isExecute]
  · rcases hsm : s.currentChordStatusMessage with _ | sm <;>
      simp [doDispatch, hgc, hm, hcmd, hec, hChord, hsm, leaveChordMode, Effect.isExecute]

/-- C4 witness: in chord mode on "ctrl+K", an unrelated key "x" with an
empty rule table triggers the miss path as the theorem states. -/
theorem C4_witness :
    ((KbState.mk (some (CurrentChord.mk "ctrl+K" (some "Ctrl+K"))) (some 0)
        (some (some "Ctrl+K")) none).currentChord
      = some (CurrentChord.mk "ctrl+K" (some "Ctrl+K")))
    ∧ ((doDispatch (fun _ _ => none) (ResolvedKb.mk false (some "x") (some "X")) 100
          (KbState.mk (some (CurrentChord.mk "ctrl+K" (some "Ctrl+K"))) (some 0)
            (some (some "Ctrl+K")) none)).2.1 = true
    ∧ (doDispatch (fun _ _ => none) (ResolvedKb.mk false (some "x") (some "X")) 100
          (KbState.mk (some (CurrentChord.mk "ctrl+K" (some "Ctrl+K"))) (some 0)
            (some (some "Ctrl+K")) none)).1.currentChord = none
    ∧ (doDispatch (fun _ _ => none) (ResolvedKb.mk false (some "x") (some "X")) 100
          (KbState.mk (some (CurrentChord.mk "ctrl+K" (some "Ctrl+K"))) (some 0)
            (some (some "Ctrl+K")) none)).1.currentChordChecker = none
    ∧ (doDispatch (fun _ _ => none) (ResolvedKb.mk false (some "x") (some "X")) 100
          (KbState.mk (some (CurrentChord.mk "ctrl+K" (some "Ctrl+K"))) (some 0)
            (some (some "Ctrl+K")) none)).1.currentChordStatusMessage = none
    ∧ Effect.missingChord (some "Ctrl+K") (some "X")
        ∈ (doDispatch (fun _ _ => none) (ResolvedKb.mk false (some "x") (some "X")) 100
          (KbState.mk (some (CurrentChord.mk "ctrl+K" (some "Ctrl+K"))) (some 0)
            (some (some "Ctrl+K")) none)).2.2
    ∧ (doDispatch (fun _ _ => none) (ResolvedKb.mk false (some "x") (some "X")) 100
          (KbState.mk (some (CurrentChord.mk "ctrl+K" (some "Ctrl+K"))) (some 0)
            (some (some "Ctrl+K")) none)).2.2.all (fun e => !e.isExecute) = true) :=
  ⟨rfl,
   C4_chord_no_match (fun _ _ => none) (ResolvedKb.mk false (some "x") (some "X")) 100
     (KbState.mk (some (CurrentChord.mk "ctrl+K" (some "Ctrl+K"))) (some 0)
       (some (some "Ctrl+K")) none)
     (CurrentChord.mk "ctrl+K" (some "Ctrl+K")) "x"
     rfl rfl rfl (Or.inl rfl)⟩

/-- C8: a second `enterChord` match while already in chord mode replaces the
stored chord with the new key press and label — the `_currentChord` field
holds exactly the new `CurrentChord` — and restarts the interval checker
(`cancelAndSet` cancels the running timer and installs a fresh 500 ms one
capturing the new entry time); the input is consumed and nothing executes. -/
theorem C8_chord_reentry (resolve : Resolver) (kb : ResolvedKb) (now : Nat)
    (s : KbState) (c1 : CurrentChord) (fp : String) (rr : ResolveResult)
    (hChord : s.currentChord = some c1)
    (hKb : kb.isChord = false) (hFp : kb.dispatchPart = some fp)
    (hRes : resolve (some c1.keypress) fp = some rr)
    (hEC : rr.enterChord = true) :
    (doDispatch resolve kb now s).1.currentChord = some (CurrentChord.mk fp kb.label)
    ∧ (doDispatch resolve kb now s).1.currentChordChecker = some now
    ∧ (doDispatch resolve kb now s).2.1 = true
    ∧ Effect.cancelTimer ∈ (doDispatch resolve kb now s).2.2
    ∧ Effect.setTimer 500 ∈ (doDispatch resolve kb now s).2.2
    ∧ (doDispatch resolve kb now s).2.2.all (fun e => !e.isExecute) = true := by
  have hgc : getCommand resolve kb s
      = (some rr, [Effect.resolverQuery (some c1.keypress) fp]) := by
    simp [getCommand, hKb, hFp, hChord, hRes]
  simp [doDispatch, hgc, hEC, hFp, enterChordMode, Effect.isExecute]

/-- C8 witness: with a rule continuing the chord, re-entering chord mode at
time 700 from a chord entered at time 0 replaces the chord state as the
theorem states. -/
theorem C8_witness :
    ((KbState.mk (some (CurrentChord.mk "ctrl+K" (some "Ctrl+K"))) (some 0)
        (some (some "Ctrl+K")) none).currentChord
      = some (CurrentChord.mk "ctrl+K" (some "Ctrl+K"))
    ∧ (fun (_ : Option String) (_ : String) =>
        some (ResolveResult.mk none none false true)) (some "ctrl+K") "ctrl+J"
      = some (ResolveResult.mk none none false true))
    ∧ ((doDispatch (fun _ _ => some (ResolveResult.mk none none false true))
          (ResolvedKb.mk false (some "ctrl+J") (some "Ctrl+J")) 700
          (KbState.mk (some (CurrentChord.mk "ctrl+K" (some "Ctrl+K"))) (some 0)
            (some (some "Ctrl+K")) none)).1.currentChord
        = some (CurrentChord.mk "ctrl+J" (some "Ctrl+J"))
    ∧ (doDispatch (fun _ _ => some (ResolveResult.mk none none false true))
          (ResolvedKb.mk false (some "ctrl+J") (some "Ctrl+J")) 700
          (KbState.mk (some (CurrentChord.mk "ctrl+K" (some "Ctrl+K"))) (some 0)
            (some (some "Ctrl+K")) none)).1.currentChordChecker = some 700
    ∧ (doDispatch (fun _ _ => some (ResolveResult.mk none none false true))
          (ResolvedKb.mk false (some "ctrl+J") (some "Ctrl+J")) 700
          (KbState.mk (some (CurrentChord.mk "ctrl+K" (some "Ctrl+K"))) (some 0)
            (some (some "Ctrl+K")) none)).2.1 = true
    ∧ Effect.cancelTimer ∈ (doDispatch (fun _ _ => some (ResolveResult.mk none none false true))
          (ResolvedKb.mk false (some "ctrl+J") (some "Ctrl+J")) 700
          (KbState.mk (some (CurrentChord.mk "ctrl+K" (some "Ctrl+K"))) (some 0)
            (some (some "Ctrl+K")) none)).2.2
    ∧ Effect.setTimer 500 ∈ (doDispatch (fun _ _ => some (ResolveResult.mk none none false true))
          (ResolvedKb.mk false (some "ctrl+J") (some "Ctrl+J")) 700
          (KbState.mk (some (CurrentChord.mk "ctrl+K" (some "Ctrl+K"))) (some 0)
            (some (some "Ctrl+K")) none)).2.2
    ∧ (doDispatch (fun _ _ => some (ResolveResult.mk none none false true))
          (ResolvedKb.mk false (some "ctrl+J") (some "Ctrl+J")) 700
          (KbState.mk (some (CurrentChord.mk "ctrl+K" (some "Ctrl+K"))) (some 0)
            (some (some "Ctrl+K")) none)).2.2.all (fun e => !e.isExecute) = true) :=
  ⟨⟨rfl, rfl⟩,
   C8_chord_reentry (fun _ _ => some (ResolveResult.mk none none false true))
     (ResolvedKb.mk false (some "ctrl+J") (some "Ctrl+J")) 700
     (KbState.mk (some (CurrentChord.mk "ctrl+K" (some "Ctrl+K"))) (some 0)
       (some (some "Ctrl+K")) none)
     (CurrentChord.mk "ctrl+K" (some "Ctrl+K")) "ctrl+J"
     (ResolveResult.mk none none false true)
     rfl rfl rfl rfl rfl⟩

/-- C5 (code bug evidence): with caller arguments and a rule argument
payload both present, `_executeCommand` computes the merged argument list
(caller arguments followed by rule arguments) but then invokes the command
executor with the command id alone in either branch: the recorded
invocation carries no arguments. -/
theorem C5_merged_args_dropped :
    executeCommand (KbState.mk none none none none)
        (ResolveResult.mk (some "save") (some ["ruleArg"]) false false)
        (some ["callerArg"])
      = [Effect.telemetry (some "save"),
         Effect.execute (some "save") none (KbState.mk none none none none)] := rfl

/-- C7 (counterexample): completing a selection gesture when no selection
command is pending is not a silent no-op: `completeSelection` reads the
`null` stored in `_selectionCommand` and `_executeCommand` dereferences it,
raising an error. -/
theorem C7_complete_without_pending_fails :
    (completeSelection (KbState.mk none none none none)).2
      = Except.error nullResolveResultError := rfl

/-- C7 (amended): if a pending selection command is stored, gesture
completion executes it exactly once and clears the pending state, and
gesture abort (`cancelSelection`) clears it without executing; but gesture
completion when no command is pending clears the field and then fails with
a null dereference inside `_executeCommand` instead of being a no-op. -/
theorem C7_selection_gesture (s s2 : KbState) (rr : ResolveResult)
    (h : s.selectionCommand = some rr)
    (h2 : s2.selectionCommand = none) :
    (completeSelection s).1.selectionCommand = none
    ∧ countExecutes (okEffects (completeSelection s).2) = 1
    ∧ (okEffects (completeSelection s).2).all (executesOnly rr.commandId) = true
    ∧ (cancelSelection s).1.selectionCommand = none
    ∧ (cancelSelection s).2 = []
    ∧ (completeSelection s2).2 = Except.error nullResolveResultError
    ∧ (completeSelection s2).1.selectionCommand = none := by
  rcases hca : rr.commandArgs with _ | ca <;>
    simp [completeSelection, h, h2, okEffects, countExecutes, executeCommand, hca,
      cancelSelection, executesOnly, Effect.isExecute]

/-- C7 witness: a stored "selectWord" selection command is executed exactly
once on completion, and the pending-free state fails as the theorem
states. -/
theorem C7_witness :
    ((KbState.mk none none none (some (ResolveResult.mk (some "selectWord") none false false))).selectionCommand
        = some (ResolveResult.mk (some "selectWord") none false false)
    ∧ (KbState.mk none none none none).selectionCommand = none)
    ∧ ((completeSelection (KbState.mk none none none
          (some (ResolveResult.mk (some "selectWord") none false false)))).1.selectionCommand = none
    ∧ countExecutes (okEffects (completeSelection (KbState.mk none none none
          (some (ResolveResult.mk (some "selectWord") none false false)))).2) = 1
    ∧ (okEffects (completeSelection (KbState.mk none none none
          (some (ResolveResult.mk (some "selectWord") none false false)))).2).all
        (executesOnly (ResolveResult.mk (some "selectWord") none false false).commandId) = true
    ∧ (cancelSelection (KbState.mk none none none
          (some (ResolveResult.mk (some "selectWord") none false false)))).1.selectionCommand = none
    ∧ (cancelSelection (KbState.mk none none none
          (some (ResolveResult.mk (some "selectWord") none false false)))).2 = []
    ∧ (completeSelection (KbState.mk none none none none)).2
        = Except.error nullResolveResultError
    ∧ (completeSelection (KbState.mk none none none none)).1.selectionCommand = none) :=
  ⟨⟨rfl, rfl⟩,
   C7_selection_gesture
     (KbState.mk none none none (some (ResolveResult.mk (some "selectWord") none false false)))
     (KbState.mk none none none none)
     (ResolveResult.mk (some "selectWord") none false false)
     rfl rfl⟩

end VSKeybinding
